import Mathlib

/-!
Verification of the model-artifact lifecycle coordination and asynchronous
job orchestration of the oci-ai-ds-model-server repository.

The Python sources are shallowly embedded as executable Lean definitions:

* model-server.py : registry / cache helper functions and the endpoint
  handlers load_model, upload_model, infer_data, register_llm, remove_model
  and run_batch_inference_and_score, modelled as pure state transformers on
  a ServerState record.  Filesystem directories are modelled as a map from
  model id to the directory content markers that the code inspects
  (score.py, runtime.yaml, the INFERENCE_ENV_SLUG attribute).  External
  collaborators (OCI data-science catalog, object storage, the user
  supplied predict function) are passed in as oracle parameters.
* sidecar-server.py : one iteration of the transfer-agent polling loop.
* mis_servers/models/async_infer_dao.py : the INF_JOBS table as a list of
  rows, with create_entity and get_entity_by_id.
* the async job status machine, modelled from the spec where the worker
  bodies are only pseudocode comments in the source.
-/

namespace OciMis

/-- Python dict lookup on an association list (first matching key wins,
as in a parsed JSON object). -/
def lookupKey {β : Type} : List (String × β) → String → Option β
  | [], _ => none
  | (k, v) :: rest, key => if k = key then some v else lookupKey rest key

/-- Python dict assignment d[key] = val: replace the value at an existing
key in place, otherwise append the new binding at the end (insertion
order is preserved, as for a Python dict). -/
def dictInsert {β : Type} : List (String × β) → String → β → List (String × β)
  | [], key, val => [(key, val)]
  | (k, v) :: rest, key, val =>
      if k = key then (key, val) :: rest else (k, v) :: dictInsert rest key val

/-- Python del d[key]: drop the binding of the first matching key. -/
def dictRemove {β : Type} : List (String × β) → String → List (String × β)
  | [], _ => []
  | (k, v) :: rest, key => if k = key then rest else (k, v) :: dictRemove rest key

/-- Number of bindings for a given key in an association list. -/
def countKey {β : Type} (l : List (String × β)) (key : String) : Nat :=
  (l.filter (fun p => p.1 = key)).length

/-- Content markers of an extracted model artifact directory: exactly the
facts about the directory that model-server.py inspects, namely the
presence of score.py and runtime.yaml and the value of the
MODEL_DEPLOYMENT INFERENCE_CONDA_ENV INFERENCE_ENV_SLUG attribute in
runtime.yaml (none when the attribute is absent). -/
structure ArtifactDir where
  hasScore : Bool
  hasRuntime : Bool
  slug : Option String
deriving DecidableEq, Repr

/-- Entry of the in-memory model cache (class ModelCache of
model-server.py): display name, model id and the inference counter. -/
structure ModelCache where
  model_name : String
  model_ocid : String
  inf_calls : Nat
deriving DecidableEq, Repr

/-- State of one model-server replica together with the shared artifact
store: the in-memory model_cache list, the model_registry.json file
(none when the file is absent), the extracted artifact directories
(keyed by model id) and the four global counters. -/
structure ServerState where
  model_cache : List ModelCache
  registry : Option (List (String × String))
  dirs : String → Option ArtifactDir
  uploads_success : Nat
  uploads_fail : Nat
  reqs_success : Nat
  reqs_fail : Nat

/-- Functional update of the artifact-directory map. -/
def setDir (dirs : String → Option ArtifactDir) (model_id : String)
    (d : Option ArtifactDir) : String → Option ArtifactDir :=
  fun k => if k = model_id then d else dirs k

/-- Function model_present_in_cache of model-server.py. -/
def model_present_in_cache (st : ServerState) (model_id : String) : Bool :=
  st.model_cache.any (fun entry => entry.model_ocid = model_id)

/-- Function model_present_in_registry of model-server.py: False when the
registry file is absent, True when the file exists and contains the key;
when the file exists without the key the Python function falls through
and returns None, which is falsy at every call site. -/
def model_present_in_registry (st : ServerState) (model_id : String) : Bool :=
  match st.registry with
  | none => false
  | some reg => (lookupKey reg model_id).isSome

/-- Function save_model_in_cache of model-server.py when called with the
model_name keyword argument: append a fresh entry to the cache. -/
def save_model_in_cache_named (st : ServerState) (model_id model_name : String) :
    ServerState :=
  { st with model_cache := st.model_cache ++ [⟨model_name, model_id, 0⟩] }

/-- Function save_model_in_cache of model-server.py when called without the
model_name keyword: it opens the registry file (none models the unhandled
exception raised when the file is absent) and appends a cache entry only
when the model id is a key of the registry. -/
def save_model_in_cache_from_registry (st : ServerState) (model_id : String) :
    Option ServerState :=
  match st.registry with
  | none => none
  | some reg =>
      match lookupKey reg model_id with
      | some name =>
          some { st with model_cache := st.model_cache ++ [⟨name, model_id, 0⟩] }
      | none => some st

/-- Function save_model_in_registry of model-server.py: read the registry
file if present (else start a new dict), set the key, write the file. -/
def save_model_in_registry (st : ServerState) (model_id model_name : String) :
    ServerState :=
  match st.registry with
  | none => { st with registry := some [(model_id, model_name)] }
  | some reg => { st with registry := some (dictInsert reg model_id model_name) }

/-- Function remove_model_from_registry of model-server.py: opening an
absent registry file or deleting an absent key raises (modelled as none);
when the remaining dict is empty the registry file itself is removed. -/
def remove_model_from_registry (st : ServerState) (model_id : String) :
    Option ServerState :=
  match st.registry with
  | none => none
  | some reg =>
      match lookupKey reg model_id with
      | none => none
      | some _ =>
          let reg' := dictRemove reg model_id
          if reg' = [] then some { st with registry := none }
          else some { st with registry := some reg' }

/-- Function remove_model_from_cache of model-server.py. -/
def remove_model_from_cache (st : ServerState) (model_id : String) : ServerState :=
  { st with model_cache :=
      st.model_cache.filter (fun m => ¬ m.model_ocid = model_id) }

/-- Shared tail of a successful load: save_model_in_registry followed by
save_model_in_cache with the model_name keyword, exactly the two calls
made by load_model, upload_model and register_llm on success. -/
def registerModel (st : ServerState) (model_id model_name : String) : ServerState :=
  save_model_in_cache_named (save_model_in_registry st model_id model_name)
    model_id model_name

/-- Model-catalog metadata consulted by load_model: display name, whether
the lifecycle state is Active, and the SlugName custom-metadata value. -/
structure CatalogEntry where
  display_name : String
  active : Bool
  slug_name : Option String
deriving Repr

/-- External collaborators of load_model: the CONDA_HOME environment of
this replica, the get_model metadata call and the
get_model_artifact_content call (none models a raised exception, some
gives the archive content that extraction produces). -/
structure LoadEnv where
  conda_home : String
  catalog : String → Option CatalogEntry
  artifact : String → Option ArtifactDir

/-- Outcome of the loadmodel endpoint: 409 conflict, 500 on a failed
catalog call, 400 bad request (inactive model or slug mismatch), or 200
with the display name of the loaded model. -/
inductive LoadOutcome
  | conflict
  | fetchError
  | badRequest
  | ok (model_name : String)
deriving DecidableEq, Repr

/-- Endpoint handler load_model of model-server.py. -/
def load_model (env : LoadEnv) (st : ServerState) (model_id : String) :
    LoadOutcome × ServerState :=
  if model_present_in_cache st model_id then
    (.conflict, st)
  else if model_present_in_registry st model_id then
    (.conflict, (save_model_in_cache_from_registry st model_id).getD st)
  else
    match env.catalog model_id with
    | none => (.fetchError, { st with uploads_fail := st.uploads_fail + 1 })
    | some m =>
        if ¬ m.active then (.badRequest, st)
        else if ¬ m.slug_name = some env.conda_home then (.badRequest, st)
        else
          match env.artifact model_id with
          | none => (.fetchError, { st with uploads_fail := st.uploads_fail + 1 })
          | some content =>
              let st1 := { st with dirs := setDir st.dirs model_id (some content) }
              let st2 := registerModel st1 model_id m.display_name
              (.ok m.display_name,
               { st2 with uploads_success := st2.uploads_success + 1 })

/-- Helper lemma: inserting a key that is absent from an association list
yields exactly one binding for that key. -/
theorem countKey_dictInsert_of_not_mem {β : Type} (l : List (String × β))
    (key : String) (val : β) (h : lookupKey l key = none) :
    countKey (dictInsert l key val) key = 1 := by
  induction l with
  | nil => simp [dictInsert, countKey]
  | cons p rest ih =>
      obtain ⟨k, v⟩ := p
      by_cases hk : k = key
      · simp [lookupKey, hk] at h
      · simp [lookupKey, hk] at h
        simp [dictInsert, hk, countKey, List.filter] at ih ⊢
        simpa [countKey, hk] using ih h

/-- Helper lemma: a model found in the cache makes load_model return
conflict without touching the state, whatever the collaborators are. -/
theorem load_model_of_cached (st : ServerState) (model_id : String)
    (h : model_present_in_cache st model_id = true) (env : LoadEnv) :
    load_model env st model_id = (.conflict, st) := by
  simp [load_model, h]

/-- Helper lemma: shape of the state produced by a successful load on a
model that was neither cached nor in the registry: the display name is
appended to the cache and the registry gains the binding. -/
theorem load_model_ok_shape (env : LoadEnv) (st : ServerState)
    (model_id name : String)
    (hc : model_present_in_cache st model_id = false)
    (hr : model_present_in_registry st model_id = false)
    (hok : (load_model env st model_id).1 = .ok name) :
    (load_model env st model_id).2.model_cache =
      st.model_cache ++ [⟨name, model_id, 0⟩] ∧
    (load_model env st model_id).2.registry =
      some (match st.registry with
            | none => [(model_id, name)]
            | some reg => dictInsert reg model_id name) := by
  unfold load_model at hok ⊢
  simp only [hc, hr, Bool.false_eq_true, if_false] at hok ⊢
  match hcat : env.catalog model_id with
  | none => simp [hcat] at hok
  | some m =>
      simp only [hcat] at hok ⊢
      by_cases hact : m.active
      · by_cases hslug : m.slug_name = some env.conda_home
        · simp only [hact, hslug, not_true, not_false_eq_true, ite_true,
            ite_false, if_neg, if_pos] at hok ⊢
          match hart : env.artifact model_id with
          | none => simp [hart] at hok
          | some content =>
              simp only [hart] at hok ⊢
              have hname : m.display_name = name := by
                simpa using hok
              subst hname
              cases hsreg : st.registry with
              | none =>
                  simp [registerModel, save_model_in_registry,
                    save_model_in_cache_named, hsreg]
              | some reg =>
                  simp [registerModel, save_model_in_registry,
                    save_model_in_cache_named, hsreg]
        · simp [hact, hslug] at hok
      · simp [hact] at hok

/-- C1: load of a cached model is a state-preserving conflict; load of a
registry-only model adopts it into the cache (appending the registry
display name) and fails with conflict, independent of every external
collaborator, hence without re-downloading; a fresh successful load
followed by a second load of the same id yields conflict on the second
call with an unchanged state, and the registry then holds exactly one
binding for that id. -/
theorem c1_load_conflict_and_idempotence (env : LoadEnv) (st : ServerState)
    (model_id : String) :
    (model_present_in_cache st model_id = true →
      ∀ env' : LoadEnv, load_model env' st model_id = (.conflict, st)) ∧
    (model_present_in_cache st model_id = false →
      ∀ reg name, st.registry = some reg → lookupKey reg model_id = some name →
      ∀ env' : LoadEnv,
        load_model env' st model_id =
          (.conflict,
           { st with model_cache := st.model_cache ++ [⟨name, model_id, 0⟩] })) ∧
    (model_present_in_cache st model_id = false →
      model_present_in_registry st model_id = false →
      ∀ name, (load_model env st model_id).1 = .ok name →
      load_model env (load_model env st model_id).2 model_id =
        (.conflict, (load_model env st model_id).2) ∧
      ∃ reg, (load_model env st model_id).2.registry = some reg ∧
        countKey reg model_id = 1) := by
  refine ⟨?_, ?_, ?_⟩
  · intro hc env'
    exact load_model_of_cached st model_id hc env'
  · intro hc reg name hreg hname env'
    have hpr : model_present_in_registry st model_id = true := by
      simp [model_present_in_registry, hreg, hname]
    simp [load_model, hc, hpr, save_model_in_cache_from_registry, hreg, hname]
  · intro hc hr name hok
    obtain ⟨hcache, hreg⟩ := load_model_ok_shape env st model_id name hc hr hok
    constructor
    · apply load_model_of_cached
      simp [model_present_in_cache, hcache]
    · refine ⟨_, hreg, ?_⟩
      cases hsreg : st.registry with
      | none => simp [hsreg, countKey]
      | some reg =>
          simp only [hsreg]
          have hnone : lookupKey reg model_id = none := by
            simp [model_present_in_registry, hsreg] at hr
            cases hlk : lookupKey reg model_id with
            | none => rfl
            | some v => rw [hlk] at hr; simp at hr
          exact countKey_dictInsert_of_not_mem reg model_id name hnone

/-- Concrete load environment for the C1 witness. -/
def c1_env : LoadEnv :=
  { conda_home := "env1"
  , catalog := fun id =>
      if id = "m1" then some ⟨"Model One", true, some "env1"⟩ else none
  , artifact := fun id =>
      if id = "m1" then some ⟨true, true, some "env1"⟩ else none }

/-- Concrete empty replica state for the C1 witness. -/
def c1_state : ServerState :=
  { model_cache := []
  , registry := none
  , dirs := fun _ => none
  , uploads_success := 0
  , uploads_fail := 0
  , reqs_success := 0
  , reqs_fail := 0 }

/-- Witness for C1: on a fresh state the model m1 is neither cached nor in
the registry, the first load succeeds, the second load returns conflict
without changing the state, and the registry holds exactly one binding
for m1. -/
theorem c1_load_conflict_and_idempotence_witness :
    model_present_in_cache c1_state "m1" = false ∧
    model_present_in_registry c1_state "m1" = false ∧
    (load_model c1_env c1_state "m1").1 = .ok "Model One" ∧
    (load_model c1_env (load_model c1_env c1_state "m1").2 "m1" =
        (.conflict, (load_model c1_env c1_state "m1").2) ∧
      ∃ reg, (load_model c1_env c1_state "m1").2.registry = some reg ∧
        countKey reg "m1" = 1) :=
  ⟨by decide, by decide, by decide,
   (c1_load_conflict_and_idempotence c1_env c1_state "m1").2.2
     (by decide) (by decide) "Model One" (by decide)⟩

/-- Python str.endswith, implemented on the character list so that it
reduces inside the kernel. -/
def strEndsWith (s suffix : String) : Bool :=
  suffix.data.isSuffixOf s.data

/-- Characters before the first occurrence of a pattern. -/
def stemAux (pat : List Char) : List Char → List Char
  | [] => []
  | c :: rest => if pat.isPrefixOf (c :: rest) then [] else c :: stemAux pat rest

/-- Model id derived from the uploaded file name: the prefix before the
first occurrence of .zip, as computed by artifact_file[:artifact_file
.index of .zip] in model-server.py. -/
def zipStem (s : String) : String :=
  String.mk (stemAux ".zip".data s.data)

/-- Effect of ZipFile extractall into a possibly pre-existing directory:
files of the archive are added, an archive runtime.yaml overwrites the
old one, otherwise the old runtime.yaml (and its slug) survives. -/
def mergeDir (old new : ArtifactDir) : ArtifactDir :=
  { hasScore := old.hasScore || new.hasScore
  , hasRuntime := old.hasRuntime || new.hasRuntime
  , slug := if new.hasRuntime then new.slug else old.slug }

/-- Directory content after the uploaded archive has been extracted into
the (possibly pre-existing) artifact directory of the model. -/
def uploadExtracted (st : ServerState) (model_id : String)
    (content : ArtifactDir) : ArtifactDir :=
  match st.dirs model_id with
  | none => content
  | some d => mergeDir d content

/-- Outcome of the uploadmodel endpoint: 415 for a non-zip file, 409
conflict, 500 on a failed artifact write, 422 unprocessable (missing
marker file or missing slug attribute), 400 bad request (slug mismatch),
or 201 with the display name. -/
inductive UploadOutcome
  | unsupportedMedia
  | conflict
  | writeError
  | unprocessable
  | badRequest
  | ok (model_name : String)
deriving DecidableEq, Repr

/-- Endpoint handler upload_model of model-server.py.  The writeOk flag
models whether streaming the uploaded archive to local disk succeeds;
content describes the extracted archive. -/
def upload_model (conda_home : String) (writeOk : Bool) (st : ServerState)
    (filename model_name : String) (content : ArtifactDir) :
    UploadOutcome × ServerState :=
  if ¬ strEndsWith filename ".zip" then (.unsupportedMedia, st)
  else
    let model_id := zipStem filename
    if model_present_in_cache st model_id then (.conflict, st)
    else if model_present_in_registry st model_id then
      (.conflict, (save_model_in_cache_from_registry st model_id).getD st)
    else
      let st1 :=
        match st.dirs model_id with
        | none =>
            { st with dirs := setDir st.dirs model_id (some ⟨false, false, none⟩) }
        | some _ => st
      if ¬ writeOk then
        (.writeError, { st1 with uploads_fail := st1.uploads_fail + 1 })
      else
        let extracted := uploadExtracted st model_id content
        let st2 := { st1 with dirs := setDir st1.dirs model_id (some extracted) }
        if ¬ extracted.hasScore ∨ ¬ extracted.hasRuntime then
          (.unprocessable, { st2 with dirs := setDir st2.dirs model_id none })
        else
          match extracted.slug with
          | none =>
              (.unprocessable, { st2 with dirs := setDir st2.dirs model_id none })
          | some s =>
              if ¬ s = conda_home then
                (.badRequest, { st2 with dirs := setDir st2.dirs model_id none })
              else
                let st3 := registerModel st2 model_id model_name
                (.ok model_name,
                 { st3 with uploads_success := st3.uploads_success + 1 })

/-- C2: an upload that passes the conflict checks but whose extracted
content misses score.py or runtime.yaml fails as unprocessable, and an
upload whose declared slug differs from the configured environment fails
as bad request; in both cases the artifact directory of the model is
gone from the final state and registry and cache are unchanged. -/
theorem c2_upload_validation_rollback (conda_home : String) (st : ServerState)
    (filename model_name : String) (content : ArtifactDir)
    (hzip : strEndsWith filename ".zip" = true)
    (hc : model_present_in_cache st (zipStem filename) = false)
    (hr : model_present_in_registry st (zipStem filename) = false) :
    ((uploadExtracted st (zipStem filename) content).hasScore = false ∨
      (uploadExtracted st (zipStem filename) content).hasRuntime = false →
      (upload_model conda_home true st filename model_name content).1 =
        .unprocessable ∧
      (upload_model conda_home true st filename model_name content).2.dirs
        (zipStem filename) = none ∧
      (upload_model conda_home true st filename model_name content).2.registry =
        st.registry ∧
      (upload_model conda_home true st filename model_name content).2.model_cache =
        st.model_cache) ∧
    (∀ s, (uploadExtracted st (zipStem filename) content).hasScore = true →
      (uploadExtracted st (zipStem filename) content).hasRuntime = true →
      (uploadExtracted st (zipStem filename) content).slug = some s →
      ¬ s = conda_home →
      (upload_model conda_home true st filename model_name content).1 =
        .badRequest ∧
      (upload_model conda_home true st filename model_name content).2.dirs
        (zipStem filename) = none ∧
      (upload_model conda_home true st filename model_name content).2.registry =
        st.registry ∧
      (upload_model conda_home true st filename model_name content).2.model_cache =
        st.model_cache) := by
  constructor
  · intro hmiss
    cases hdir : st.dirs (zipStem filename) with
    | none =>
        simp only [upload_model, hzip, hc, hr, hdir, Bool.false_eq_true,
          Bool.not_eq_true, not_false_eq_true, if_true, if_false, ite_true,
          ite_false]
        rw [if_pos hmiss]
        simp [setDir]
    | some d =>
        simp only [upload_model, hzip, hc, hr, hdir, Bool.false_eq_true,
          Bool.not_eq_true, not_false_eq_true, if_true, if_false, ite_true,
          ite_false]
        rw [if_pos hmiss]
        simp [setDir]
  · intro s hsc hrt hslug hne
    have hcond : ¬ ((uploadExtracted st (zipStem filename) content).hasScore =
        false ∨
        (uploadExtracted st (zipStem filename) content).hasRuntime = false) := by
      simp [hsc, hrt]
    cases hdir : st.dirs (zipStem filename) with
    | none =>
        simp only [upload_model, hzip, hc, hr, hdir, Bool.false_eq_true,
          Bool.not_eq_true, not_false_eq_true, if_true, if_false, ite_true,
          ite_false]
        rw [if_neg hcond]
        simp only [hslug]
        rw [if_pos hne]
        simp [setDir]
    | some d =>
        simp only [upload_model, hzip, hc, hr, hdir, Bool.false_eq_true,
          Bool.not_eq_true, not_false_eq_true, if_true, if_false, ite_true,
          ite_false]
        rw [if_neg hcond]
        simp only [hslug]
        rw [if_pos hne]
        simp [setDir]

/-- Concrete replica state for the C2 witness. -/
def c2_state : ServerState :=
  { model_cache := [⟨"Other", "other", 2⟩]
  , registry := some [("other", "Other")]
  , dirs := fun k => if k = "other" then some ⟨true, true, some "env1"⟩ else none
  , uploads_success := 1
  , uploads_fail := 0
  , reqs_success := 0
  , reqs_fail := 0 }

/-- Witness for C2: uploading m2.zip without score.py is rejected as
unprocessable with no artifact directory left and registry and cache
untouched, and uploading it with a slug env2 against environment env1 is
rejected as bad request, again with full rollback. -/
theorem c2_upload_validation_rollback_witness :
    (strEndsWith "m2.zip" ".zip" = true ∧
      model_present_in_cache c2_state (zipStem "m2.zip") = false ∧
      model_present_in_registry c2_state (zipStem "m2.zip") = false) ∧
    ((upload_model "env1" true c2_state "m2.zip" "M Two"
        ⟨false, true, some "env1"⟩).1 = .unprocessable ∧
      (upload_model "env1" true c2_state "m2.zip" "M Two"
        ⟨false, true, some "env1"⟩).2.dirs (zipStem "m2.zip") = none ∧
      (upload_model "env1" true c2_state "m2.zip" "M Two"
        ⟨false, true, some "env1"⟩).2.registry = c2_state.registry ∧
      (upload_model "env1" true c2_state "m2.zip" "M Two"
        ⟨false, true, some "env1"⟩).2.model_cache = c2_state.model_cache) ∧
    ((upload_model "env1" true c2_state "m2.zip" "M Two"
        ⟨true, true, some "env2"⟩).1 = .badRequest ∧
      (upload_model "env1" true c2_state "m2.zip" "M Two"
        ⟨true, true, some "env2"⟩).2.dirs (zipStem "m2.zip") = none ∧
      (upload_model "env1" true c2_state "m2.zip" "M Two"
        ⟨true, true, some "env2"⟩).2.registry = c2_state.registry ∧
      (upload_model "env1" true c2_state "m2.zip" "M Two"
        ⟨true, true, some "env2"⟩).2.model_cache = c2_state.model_cache) :=
  ⟨⟨by decide, by decide, by decide⟩,
   (c2_upload_validation_rollback "env1" c2_state "m2.zip" "M Two"
      ⟨false, true, some "env1"⟩ (by decide) (by decide) (by decide)).1
     (by decide),
   (c2_upload_validation_rollback "env1" c2_state "m2.zip" "M Two"
      ⟨true, true, some "env2"⟩ (by decide) (by decide) (by decide)).2
     "env2" (by decide) (by decide) (by decide) (by decide)⟩

/-- Loop of infer_data that bumps the inf_calls counter of the first
cache entry with the given model id (the Python for loop breaks after
the first match). -/
def bump_inf_calls : List ModelCache → String → List ModelCache
  | [], _ => []
  | m :: rest, model_id =>
      if m.model_ocid = model_id then
        { m with inf_calls := m.inf_calls + 1 } :: rest
      else m :: bump_inf_calls rest model_id

/-- Presence of the score.py marker that the infer endpoint checks with
os.path.isfile on the artifact directory of the model. -/
def score_file_present (st : ServerState) (model_id : String) : Bool :=
  match st.dirs model_id with
  | some d => d.hasScore
  | none => false

/-- Outcome of the infer endpoint: 400 bad request (empty payload or
missing score.py), 422 when predict raised, 500 when the cache update
raised because the registry file is absent, or 200 with the prediction
results and the elapsed inference time. -/
inductive InferOutcome
  | badRequest
  | unprocessable
  | serverError
  | ok (results : String) (inference_time : Nat)
deriving DecidableEq, Repr

/-- Endpoint handler infer_data of model-server.py.  The predict oracle
gives the outcome of module.predict on the request payload (none models
a raised exception), elapsed the measured inference time, data_empty
whether the request body dict is empty. -/
def infer_data (predict : Option String) (elapsed : Nat) (st : ServerState)
    (model_id : String) (data_empty : Bool) : InferOutcome × ServerState :=
  if data_empty then
    (.badRequest, { st with reqs_fail := st.reqs_fail + 1 })
  else if ¬ score_file_present st model_id then
    (.badRequest, remove_model_from_cache st model_id)
  else
    match predict with
    | none => (.unprocessable, { st with reqs_fail := st.reqs_fail + 1 })
    | some results =>
        let st1 := { st with reqs_success := st.reqs_success + 1 }
        if model_present_in_cache st1 model_id then
          (.ok results elapsed,
           { st1 with model_cache := bump_inf_calls st1.model_cache model_id })
        else
          match save_model_in_cache_from_registry st1 model_id with
          | none => (.serverError, st1)
          | some st2 =>
              (.ok results elapsed,
               { st2 with
                   model_cache := bump_inf_calls st2.model_cache model_id })

/-- Concrete state for the C5 counterexample: the artifact directory of
m1 exists on shared storage with its score.py, the registry file exists
but does not list m1, and this replica never loaded m1. -/
def c5_state : ServerState :=
  { model_cache := []
  , registry := some []
  , dirs := fun k => if k = "m1" then some ⟨true, false, none⟩ else none
  , uploads_success := 0
  , uploads_fail := 0
  , reqs_success := 0
  , reqs_fail := 0 }

/-- Counterexample to C5 as stated: with a non-empty payload and the
artifact directory of m1 present on shared storage, the call succeeds
and returns the results, yet no cache record for m1 is created and no
invocation counter is incremented (the final cache is empty), because
the code creates a record only when the model id is listed in the
registry file. -/
theorem c5_counterexample :
    (infer_data (some "res") 5 c5_state "m1" false).1 = .ok "res" 5 ∧
    (infer_data (some "res") 5 c5_state "m1" false).2.model_cache = [] := by
  constructor
  · decide
  · decide

/-- Helper lemma: bumping a list that ends with a fresh entry for the id,
no earlier entry having that id, increments exactly that last entry. -/
theorem bump_inf_calls_append (l : List ModelCache) (model_id name : String)
    (h : ∀ m ∈ l, ¬ m.model_ocid = model_id) :
    bump_inf_calls (l ++ [⟨name, model_id, 0⟩]) model_id =
      l ++ [⟨name, model_id, 1⟩] := by
  induction l with
  | nil => simp [bump_inf_calls]
  | cons m rest ih =>
      have hm : ¬ m.model_ocid = model_id := h m (by simp)
      simp only [List.cons_append, bump_inf_calls, if_neg hm]
      exact congrArg (List.cons m) (ih (fun x hx => h x (by simp [hx])))

/-- Helper lemma: bumping a list with no entry for the id leaves it
unchanged. -/
theorem bump_inf_calls_of_absent (l : List ModelCache) (model_id : String)
    (h : ∀ m ∈ l, ¬ m.model_ocid = model_id) :
    bump_inf_calls l model_id = l := by
  induction l with
  | nil => rfl
  | cons m rest ih =>
      have hm : ¬ m.model_ocid = model_id := h m (by simp)
      simp only [bump_inf_calls, if_neg hm]
      exact congrArg (List.cons m) (ih (fun x hx => h x (by simp [hx])))

/-- C5 amended: an empty payload fails with bad request; a non-empty
payload with no score.py in the artifact directory fails with bad
request and evicts any stale cache entry for the model; otherwise the
scoring entry point runs and, on success, the results are returned with
the elapsed time, where the invocation counter is incremented for a
cached model, a cache record with counter one is created for a model
listed in the registry but not cached, no counter is touched for a model
in neither cache nor registry, and a missing registry file makes the
call fail after scoring. -/
theorem c5_infer_amended (predict : Option String) (elapsed : Nat)
    (st : ServerState) (model_id : String) :
    (infer_data predict elapsed st model_id true =
      (.badRequest, { st with reqs_fail := st.reqs_fail + 1 })) ∧
    (score_file_present st model_id = false →
      infer_data predict elapsed st model_id false =
        (.badRequest, remove_model_from_cache st model_id)) ∧
    (score_file_present st model_id = true →
      (infer_data none elapsed st model_id false =
        (.unprocessable, { st with reqs_fail := st.reqs_fail + 1 })) ∧
      (∀ results,
        (model_present_in_cache st model_id = true →
          infer_data (some results) elapsed st model_id false =
            (.ok results elapsed,
             { st with reqs_success := st.reqs_success + 1
                       model_cache := bump_inf_calls st.model_cache model_id })) ∧
        (model_present_in_cache st model_id = false →
          (∀ reg name, st.registry = some reg →
            lookupKey reg model_id = some name →
            infer_data (some results) elapsed st model_id false =
              (.ok results elapsed,
               { st with reqs_success := st.reqs_success + 1
                         model_cache :=
                           st.model_cache ++ [⟨name, model_id, 1⟩] })) ∧
          (∀ reg, st.registry = some reg → lookupKey reg model_id = none →
            infer_data (some results) elapsed st model_id false =
              (.ok results elapsed,
               { st with reqs_success := st.reqs_success + 1 })) ∧
          (st.registry = none →
            infer_data (some results) elapsed st model_id false =
              (.serverError,
               { st with reqs_success := st.reqs_success + 1 }))))) := by
  refine ⟨by simp [infer_data], ?_, ?_⟩
  · intro hmiss
    simp [infer_data, hmiss]
  · intro hscore
    refine ⟨by simp [infer_data, hscore], ?_⟩
    intro results
    have hnc_entries : model_present_in_cache st model_id = false →
        ∀ m ∈ st.model_cache, ¬ m.model_ocid = model_id := by
      intro hnc m hm
      simp [model_present_in_cache] at hnc
      exact hnc m hm
    constructor
    · intro hcached
      have hc1 : model_present_in_cache
          { st with reqs_success := st.reqs_success + 1 } model_id = true := by
        simpa [model_present_in_cache] using hcached
      simp [infer_data, hscore, hc1]
    · intro hnc
      have hnc1 : model_present_in_cache
          { st with reqs_success := st.reqs_success + 1 } model_id = false := by
        simpa [model_present_in_cache] using hnc
      refine ⟨?_, ?_, ?_⟩
      · intro reg name hreg hname
        have hsave : save_model_in_cache_from_registry
            { st with reqs_success := st.reqs_success + 1 } model_id =
            some { st with reqs_success := st.reqs_success + 1
                           model_cache :=
                             st.model_cache ++ [⟨name, model_id, 0⟩] } := by
          simp [save_model_in_cache_from_registry, hreg, hname]
        have hbump := bump_inf_calls_append st.model_cache model_id name
          (hnc_entries hnc)
        simp [infer_data, hscore, hnc1, hsave, hbump]
      · intro reg hreg hnone
        have hsave : save_model_in_cache_from_registry
            { st with reqs_success := st.reqs_success + 1 } model_id =
            some { st with reqs_success := st.reqs_success + 1 } := by
          simp [save_model_in_cache_from_registry, hreg, hnone]
        have hid := bump_inf_calls_of_absent st.model_cache model_id
          (hnc_entries hnc)
        simp [infer_data, hscore, hnc1, hsave, hid]
      · intro hreg
        have hsave : save_model_in_cache_from_registry
            { st with reqs_success := st.reqs_success + 1 } model_id =
            none := by
          simp [save_model_in_cache_from_registry, hreg]
        simp [infer_data, hscore, hnc1, hsave]

/-- Concrete state for the C5 witness: m1 is on shared storage with its
score.py and listed in the registry file, but not cached locally. -/
def c5_wstate : ServerState :=
  { model_cache := []
  , registry := some [("m1", "Model One")]
  , dirs := fun k => if k = "m1" then some ⟨true, true, some "env1"⟩ else none
  , uploads_success := 0
  , uploads_fail := 0
  , reqs_success := 3
  , reqs_fail := 0 }

/-- Witness for the amended C5: inferring against a registry-listed but
uncached model succeeds and creates a cache record with counter one. -/
theorem c5_infer_amended_witness :
    (score_file_present c5_wstate "m1" = true ∧
     model_present_in_cache c5_wstate "m1" = false ∧
     c5_wstate.registry = some [("m1", "Model One")] ∧
     lookupKey [("m1", "Model One")] "m1" = some "Model One") ∧
    infer_data (some "out") 7 c5_wstate "m1" false =
      (.ok "out" 7,
       { c5_wstate with reqs_success := 4
                        model_cache := [⟨"Model One", "m1", 1⟩] }) :=
  ⟨⟨by decide, by decide, by decide, by decide⟩, by
    have h := (((c5_infer_amended (some "out") 7 c5_wstate "m1").2.2
        (by decide)).2 "out").2 (by decide)
    have h2 := h.1 [("m1", "Model One")] "Model One" (by decide) (by decide)
    simpa using h2⟩

/-- Outcome of the internal registerllm callback endpoint: 401 when the
presented secret does not match the server uuid, else 200. -/
inductive RegisterOutcome
  | unauthorized
  | ok
deriving DecidableEq, Repr

/-- Endpoint handler register_llm of model-server.py: server_uuid is the
secret this server generated at startup; on a matching secret a
COMPLETED status performs the registry and cache mutation of a
successful load, a FAILED status only counts the failure, any other
status changes nothing. -/
def register_llm (server_uuid : String) (st : ServerState)
    (model_name model_id status secret : String) :
    RegisterOutcome × ServerState :=
  if secret = server_uuid then
    if status = "COMPLETED" then
      (.ok,
       registerModel { st with uploads_success := st.uploads_success + 1 }
         model_id model_name)
    else if status = "FAILED" then
      (.ok, { st with uploads_fail := st.uploads_fail + 1 })
    else (.ok, st)
  else (.unauthorized, st)

/-- C4: a callback with a wrong secret is rejected as unauthorized with a
completely unchanged state; a callback with the right secret and status
COMPLETED succeeds and applies registerModel, and registerModel is
exactly the registry and cache mutation of every successful load of the
same model id (their registry and cache fields agree). -/
theorem c4_register_llm_auth (server_uuid : String) (st : ServerState)
    (model_name model_id secret : String) :
    (∀ status, ¬ secret = server_uuid →
      register_llm server_uuid st model_name model_id status secret =
        (.unauthorized, st)) ∧
    (secret = server_uuid →
      register_llm server_uuid st model_name model_id "COMPLETED" secret =
        (.ok,
         registerModel { st with uploads_success := st.uploads_success + 1 }
           model_id model_name) ∧
      (∀ (env : LoadEnv) (st2 : ServerState),
        (load_model env st2 model_id).1 = .ok model_name →
        (load_model env st2 model_id).2.registry =
          (registerModel st2 model_id model_name).registry ∧
        (load_model env st2 model_id).2.model_cache =
          (registerModel st2 model_id model_name).model_cache)) := by
  constructor
  · intro status hne
    simp [register_llm, hne]
  · intro heq
    constructor
    · simp [register_llm, heq]
    · intro env st2 hok
      have hc : model_present_in_cache st2 model_id = false := by
        cases hcv : model_present_in_cache st2 model_id with
        | false => rfl
        | true =>
            rw [load_model_of_cached st2 model_id hcv env] at hok
            simp at hok
      have hr : model_present_in_registry st2 model_id = false := by
        cases hrv : model_present_in_registry st2 model_id with
        | false => rfl
        | true =>
            have : (load_model env st2 model_id).1 = .conflict := by
              simp [load_model, hc, hrv]
            rw [this] at hok
            simp at hok
      obtain ⟨hcache, hreg⟩ :=
        load_model_ok_shape env st2 model_id model_name hc hr hok
      constructor
      · rw [hreg]
        cases hsreg : st2.registry with
        | none =>
            simp [registerModel, save_model_in_registry,
              save_model_in_cache_named, hsreg]
        | some reg =>
            simp [registerModel, save_model_in_registry,
              save_model_in_cache_named, hsreg]
      · rw [hcache]
        cases hsreg : st2.registry with
        | none =>
            simp [registerModel, save_model_in_registry,
              save_model_in_cache_named, hsreg]
        | some reg =>
            simp [registerModel, save_model_in_registry,
              save_model_in_cache_named, hsreg]

/-- Concrete state for the C4 witness. -/
def c4_state : ServerState :=
  { model_cache := []
  , registry := none
  , dirs := fun _ => none
  , uploads_success := 0
  , uploads_fail := 0
  , reqs_success := 0
  , reqs_fail := 0 }

/-- Witness for C4: a callback with secret bad against server secret
srv1 is unauthorized and changes nothing, and a callback with the right
secret and status COMPLETED registers the model. -/
theorem c4_register_llm_auth_witness :
    ((¬ "bad" = "srv1") ∧
      register_llm "srv1" c4_state "Model One" "m1" "COMPLETED" "bad" =
        (.unauthorized, c4_state)) ∧
    (("srv1" : String) = "srv1" ∧
      register_llm "srv1" c4_state "Model One" "m1" "COMPLETED" "srv1" =
        (.ok,
         registerModel
           { c4_state with uploads_success := c4_state.uploads_success + 1 }
           "m1" "Model One")) :=
  ⟨⟨by decide,
    (c4_register_llm_auth "srv1" c4_state "Model One" "m1" "bad").1
      "COMPLETED" (by decide)⟩,
   ⟨rfl,
    ((c4_register_llm_auth "srv1" c4_state "Model One" "m1" "srv1").2
      rfl).1⟩⟩

/-- Outcome of the removemodel endpoint: 404 when the artifact directory
is absent, 500 when the registry update raises after the directory was
deleted, else 200. -/
inductive RemoveOutcome
  | notFound
  | ok
  | serverError
deriving DecidableEq, Repr

/-- Endpoint handler remove_model of model-server.py: the artifact
directory is deleted first, then the registry update runs (raising when
the registry file is absent or has no such key), and only after a
successful registry update is the cache entry removed. -/
def remove_model (st : ServerState) (model_id : String) :
    RemoveOutcome × ServerState :=
  match st.dirs model_id with
  | none => (.notFound, st)
  | some _ =>
      let st1 := { st with dirs := setDir st.dirs model_id none }
      match remove_model_from_registry st1 model_id with
      | none => (.serverError, st1)
      | some st2 => (.ok, remove_model_from_cache st2 model_id)

/-- C10: when the artifact directory of the model exists but the registry
file is absent or has no entry for the model, remove_model reports a
server error while the artifact directory is already gone and both the
cache and the registry file are exactly as before the call. -/
theorem c10_remove_model_error_edge (st : ServerState) (model_id : String)
    (hdir : (st.dirs model_id).isSome = true)
    (hmiss : st.registry = none ∨
      ∃ reg, st.registry = some reg ∧ lookupKey reg model_id = none) :
    remove_model st model_id =
      (.serverError, { st with dirs := setDir st.dirs model_id none }) := by
  have hfail : remove_model_from_registry
      { st with dirs := setDir st.dirs model_id none } model_id = none := by
    rcases hmiss with hnone | ⟨reg, hreg, hnk⟩
    · simp [remove_model_from_registry, hnone]
    · simp [remove_model_from_registry, hreg, hnk]
  cases hd : st.dirs model_id with
  | none => rw [hd] at hdir; simp at hdir
  | some d => simp [remove_model, hd, hfail]

/-- Concrete state for the C10 witness: the artifact directory of m1
exists and the model is cached, but the registry file is absent. -/
def c10_state : ServerState :=
  { model_cache := [⟨"Model One", "m1", 3⟩]
  , registry := none
  , dirs := fun k => if k = "m1" then some ⟨true, true, some "env1"⟩ else none
  , uploads_success := 0
  , uploads_fail := 0
  , reqs_success := 0
  , reqs_fail := 0 }

/-- Witness for C10: removing m1 from a state whose registry file is
absent reports the server error with the directory gone, the cache entry
still present and the registry still absent. -/
theorem c10_remove_model_error_edge_witness :
    ((c10_state.dirs "m1").isSome = true ∧
      c10_state.registry = none) ∧
    remove_model c10_state "m1" =
      (.serverError, { c10_state with dirs := setDir c10_state.dirs "m1" none }) ∧
    (remove_model c10_state "m1").2.model_cache = [⟨"Model One", "m1", 3⟩] ∧
    (remove_model c10_state "m1").2.registry = none ∧
    (remove_model c10_state "m1").2.dirs "m1" = none :=
  ⟨⟨by decide, rfl⟩,
   c10_remove_model_error_edge c10_state "m1" (by decide) (Or.inl rfl),
   by decide, by decide, by decide⟩

/-- Transfer request descriptor (the model_loc.json written by the
uploadllm endpoint and read by getModelConfig of sidecar-server.py);
only the fields that drive the sidecar control flow are kept. -/
structure TransferRequest where
  model_name : String
  model_id : String
  sidecar_secret : String
  server_secret : String
deriving DecidableEq, Repr

/-- State seen by the sidecar: the pending temp request directories (in
glob order, the first being the one getModelConfig would return) and the
set of installed model artifact directories (with the score marker of
their extracted content). -/
structure SidecarState where
  temp_dirs : List TransferRequest
  model_dirs : List (String × Bool)
deriving DecidableEq, Repr

/-- Callback that notifyModelServer posts to the registerllm endpoint of
the inference server. -/
inductive SidecarCallback
  | completed (model_id server_secret : String)
  | failed (model_id server_secret : String)
deriving DecidableEq, Repr

/-- Outcome of downloadModelArtifacts plus the extraction step inside
saveModelArtifacts: an exception while downloading, an exception while
extracting (after the model directory was created), or success with the
indication whether the extracted content holds score.py. -/
inductive DlResult
  | dlErr
  | extractErr
  | ok (hasScore : Bool)
deriving DecidableEq, Repr

/-- Function getModelConfig of sidecar-server.py: it inspects only the
first directory the glob yields and returns it when the embedded sidecar
secret matches its own uuid, otherwise reports no work found. -/
def getModelConfig (sidecar_uuid : String) (st : SidecarState) :
    Option TransferRequest :=
  match st.temp_dirs with
  | [] => none
  | r :: _ => if r.sidecar_secret = sidecar_uuid then some r else none

/-- Function isModelArtifactDirPresent of sidecar-server.py. -/
def isModelArtifactDirPresent (st : SidecarState) (r : TransferRequest) : Bool :=
  st.model_dirs.any (fun p => p.1 = r.model_id)

/-- One iteration of main_loop of sidecar-server.py: no work found is a
sleep; an already-present artifact directory discards the temp directory
silently; a download exception deletes the temp directory and posts a
FAILED callback; an extraction exception does the same but leaves the
created model directory behind; a successful extraction deletes the temp
directory and then either posts COMPLETED (score.py present) or removes
the model directory again and posts nothing (score.py missing). -/
def main_loop_iteration (sidecar_uuid : String)
    (download : TransferRequest → DlResult) (st : SidecarState) :
    SidecarState × Option SidecarCallback :=
  match getModelConfig sidecar_uuid st with
  | none => (st, none)
  | some r =>
      if isModelArtifactDirPresent st r then
        ({ st with temp_dirs := st.temp_dirs.tail }, none)
      else
        match download r with
        | .dlErr =>
            ({ st with temp_dirs := st.temp_dirs.tail },
             some (.failed r.model_id r.server_secret))
        | .extractErr =>
            ({ temp_dirs := st.temp_dirs.tail
             , model_dirs := st.model_dirs ++ [(r.model_id, false)] },
             some (.failed r.model_id r.server_secret))
        | .ok hasScore =>
            if hasScore then
              ({ temp_dirs := st.temp_dirs.tail
               , model_dirs := st.model_dirs ++ [(r.model_id, true)] },
               some (.completed r.model_id r.server_secret))
            else
              ({ st with temp_dirs := st.temp_dirs.tail }, none)

/-- Counterexample to C3 as stated: a transfer request picked up by the
agent (matching sidecar secret, fresh target directory) whose archive
misses score.py fails the required-file validation; the temp directory
is deleted but no callback at all is posted, in particular no FAILED
callback. -/
theorem c3_counterexample :
    main_loop_iteration "sc1" (fun _ => .ok false)
        ⟨[⟨"Model One", "m1", "sc1", "srv1"⟩], []⟩ =
      (⟨[], []⟩, none) ∧
    (main_loop_iteration "sc1" (fun _ => .ok false)
        ⟨[⟨"Model One", "m1", "sc1", "srv1"⟩], []⟩).2 ≠
      some (.failed "m1" "srv1") := by
  constructor
  · decide
  · decide

/-- C3 amended: a first pending request with a mismatching sidecar secret
is treated as no work found, leaving the state untouched and posting no
callback; for a picked-up request with a fresh target directory, a
download exception deletes the temp directory and posts FAILED, an
extraction exception deletes the temp directory, leaves the created
model directory and posts FAILED, and a required-file validation failure
deletes the temp directory and posts no callback; in every processed
case the request leaves the queue, so the agent never retries it. -/
theorem c3_sidecar_failure_amended (sidecar_uuid : String)
    (download : TransferRequest → DlResult) (r : TransferRequest)
    (rest : List TransferRequest) (dirs : List (String × Bool)) :
    (¬ r.sidecar_secret = sidecar_uuid →
      main_loop_iteration sidecar_uuid download ⟨r :: rest, dirs⟩ =
        (⟨r :: rest, dirs⟩, none)) ∧
    (r.sidecar_secret = sidecar_uuid →
      isModelArtifactDirPresent ⟨r :: rest, dirs⟩ r = false →
      (download r = .dlErr →
        main_loop_iteration sidecar_uuid download ⟨r :: rest, dirs⟩ =
          (⟨rest, dirs⟩, some (.failed r.model_id r.server_secret))) ∧
      (download r = .extractErr →
        main_loop_iteration sidecar_uuid download ⟨r :: rest, dirs⟩ =
          (⟨rest, dirs ++ [(r.model_id, false)]⟩,
           some (.failed r.model_id r.server_secret))) ∧
      (download r = .ok false →
        main_loop_iteration sidecar_uuid download ⟨r :: rest, dirs⟩ =
          (⟨rest, dirs⟩, none))) := by
  constructor
  · intro hne
    simp [main_loop_iteration, getModelConfig, hne]
  · intro heq hfresh
    refine ⟨?_, ?_, ?_⟩
    · intro hdl
      simp [main_loop_iteration, getModelConfig, heq, hfresh, hdl]
    · intro hdl
      simp [main_loop_iteration, getModelConfig, heq, hfresh, hdl]
    · intro hdl
      simp [main_loop_iteration, getModelConfig, heq, hfresh, hdl]

/-- Witness for the amended C3: a download exception on a picked-up
request for m1 removes the temp directory and posts the FAILED callback
carrying the server secret. -/
theorem c3_sidecar_failure_amended_witness :
    ((⟨"Model One", "m1", "sc1", "srv1"⟩ : TransferRequest).sidecar_secret =
        "sc1" ∧
      isModelArtifactDirPresent
        ⟨[⟨"Model One", "m1", "sc1", "srv1"⟩], []⟩
        ⟨"Model One", "m1", "sc1", "srv1"⟩ = false ∧
      (fun _ : TransferRequest => DlResult.dlErr)
        ⟨"Model One", "m1", "sc1", "srv1"⟩ = .dlErr) ∧
    main_loop_iteration "sc1" (fun _ => DlResult.dlErr)
        ⟨[⟨"Model One", "m1", "sc1", "srv1"⟩], []⟩ =
      (⟨[], []⟩, some (.failed "m1" "srv1")) :=
  ⟨⟨rfl, by decide, rfl⟩,
   ((c3_sidecar_failure_amended "sc1" (fun _ => DlResult.dlErr)
       ⟨"Model One", "m1", "sc1", "srv1"⟩ [] []).2
     rfl (by decide)).1 rfl⟩

/-- C7: a picked-up transfer request whose target artifact directory is
already present is discarded (its temp directory removed) with no
callback and no change to the artifact store, and the result does not
depend on the download collaborator at all, so nothing is downloaded or
installed. -/
theorem c7_sidecar_existing_dir_noop (sidecar_uuid : String)
    (r : TransferRequest) (rest : List TransferRequest)
    (dirs : List (String × Bool))
    (hsec : r.sidecar_secret = sidecar_uuid)
    (hpresent : isModelArtifactDirPresent ⟨r :: rest, dirs⟩ r = true) :
    ∀ download : TransferRequest → DlResult,
      main_loop_iteration sidecar_uuid download ⟨r :: rest, dirs⟩ =
        (⟨rest, dirs⟩, none) := by
  intro download
  simp [main_loop_iteration, getModelConfig, hsec, hpresent]

/-- Witness for C7: with the m1 artifact directory already installed, the
iteration discards the temp request, posts nothing, keeps the store, and
does so for two different download oracles alike. -/
theorem c7_sidecar_existing_dir_noop_witness :
    ((⟨"Model One", "m1", "sc1", "srv1"⟩ : TransferRequest).sidecar_secret =
        "sc1" ∧
      isModelArtifactDirPresent
        ⟨[⟨"Model One", "m1", "sc1", "srv1"⟩], [("m1", true)]⟩
        ⟨"Model One", "m1", "sc1", "srv1"⟩ = true) ∧
    main_loop_iteration "sc1" (fun _ => DlResult.dlErr)
        ⟨[⟨"Model One", "m1", "sc1", "srv1"⟩], [("m1", true)]⟩ =
      (⟨[], [("m1", true)]⟩, none) ∧
    main_loop_iteration "sc1" (fun _ => DlResult.ok true)
        ⟨[⟨"Model One", "m1", "sc1", "srv1"⟩], [("m1", true)]⟩ =
      (⟨[], [("m1", true)]⟩, none) :=
  ⟨⟨rfl, by decide⟩,
   c7_sidecar_existing_dir_noop "sc1" ⟨"Model One", "m1", "sc1", "srv1"⟩
     [] [("m1", true)] rfl (by decide) (fun _ => DlResult.dlErr),
   c7_sidecar_existing_dir_noop "sc1" ⟨"Model One", "m1", "sc1", "srv1"⟩
     [] [("m1", true)] rfl (by decide) (fun _ => DlResult.ok true)⟩

/-- Object-storage locator sent in a batch inference request (class
StorageItem of model-server.py). -/
structure StorageItem where
  os_namespace : String
  bucket_name : String
  artifact_name : String
deriving DecidableEq, Repr

/-- Batch inference and scoring request body (class
BatchInferScoreRequest of model-server.py, model parameter dicts
omitted as they do not influence control flow). -/
structure BatchInferScoreRequest where
  ll_model : String
  measure_model : String
  input_storage : StorageItem
  output_storage : StorageItem
deriving DecidableEq, Repr

/-- Job row persisted in the INF_JOBS table: the request dict enriched
with the fields run_batch_inference_and_score stamps before posting it
to the resource manager. -/
structure JobRow where
  ll_model : String
  measure_model : String
  input_storage : StorageItem
  output_storage : StorageItem
  job_id : String
  service_name : String
  server_uri : String
  server_id : String
  job_status : String
  job_receipt_time : String
deriving DecidableEq, Repr

/-- Method create_entity of AsyncInferenceRequest
(async_infer_dao.py): one INSERT INTO INF_JOBS appending one row. -/
def create_entity (table : List JobRow) (data : JobRow) : List JobRow :=
  table ++ [data]

/-- Outcome of the infernscore endpoint: 422 when both model references
are empty, else 201 with the generated job id. -/
inductive SubmitOutcome
  | unprocessable
  | created (job_id : String)
deriving DecidableEq, Repr

/-- Endpoint handler run_batch_inference_and_score of model-server.py
plus the resource-manager insert it triggers.  start_time is the
START_TIME constant computed once at server boot; now is the wall-clock
instant at which this request is submitted (the code never reads it);
uuid is the fresh uuid4 string generated for this request. -/
def run_batch_inference_and_score
    (start_time now uuid service_name server_uri server_id : String)
    (table : List JobRow) (input : BatchInferScoreRequest) :
    SubmitOutcome × List JobRow :=
  if input.ll_model = "" ∧ input.measure_model = "" then
    (.unprocessable, table)
  else
    let job_id := "ID-" ++ String.mk (uuid.data.take 8)
    let row : JobRow :=
      { ll_model := input.ll_model
      , measure_model := input.measure_model
      , input_storage := input.input_storage
      , output_storage := input.output_storage
      , job_id := job_id
      , service_name := service_name
      , server_uri := server_uri
      , server_id := server_id
      , job_status := "ACCEPTED"
      , job_receipt_time := start_time }
    (.created job_id, create_entity table row)

/-- Concrete request for the C6 theorems. -/
def c6_req : BatchInferScoreRequest :=
  ⟨"modelA", "", ⟨"ns", "bkt", "in.json"⟩, ⟨"ns", "bkt", "out.json"⟩⟩

/-- Counterexample to C6 as stated: a valid submission arriving at time
t1 on a server booted at time t0 persists a row whose
job_receipt_time is the boot time t0, not the submission time t1, so
the job is not stamped with its submission time. -/
theorem c6_counterexample :
    (run_batch_inference_and_score "t0" "t1" "abcdef12-3456" "svc" "/infer/"
        "srv1" [] c6_req).2 =
      [⟨"modelA", "", ⟨"ns", "bkt", "in.json"⟩, ⟨"ns", "bkt", "out.json"⟩,
        "ID-abcdef12", "svc", "/infer/", "srv1", "ACCEPTED", "t0"⟩] ∧
    ¬ ("t0" : String) = "t1" := by
  constructor
  · decide
  · decide

/-- C6 amended: a submission with both model references empty fails as
unprocessable and persists nothing; a submission with at least one
non-empty model reference is assigned the job id derived from the fresh
uuid, stamped with status ACCEPTED and the server boot time in
job_receipt_time, persists exactly one row carrying these fields, and
returns that job id. -/
theorem c6_submit_amended
    (start_time now uuid service_name server_uri server_id : String)
    (table : List JobRow) (input : BatchInferScoreRequest) :
    (input.ll_model = "" → input.measure_model = "" →
      run_batch_inference_and_score start_time now uuid service_name
          server_uri server_id table input = (.unprocessable, table)) ∧
    (¬ (input.ll_model = "" ∧ input.measure_model = "") →
      run_batch_inference_and_score start_time now uuid service_name
          server_uri server_id table input =
        (.created ("ID-" ++ String.mk (uuid.data.take 8)),
         table ++
           [⟨input.ll_model, input.measure_model, input.input_storage,
             input.output_storage, "ID-" ++ String.mk (uuid.data.take 8),
             service_name, server_uri, server_id, "ACCEPTED", start_time⟩]) ∧
      (run_batch_inference_and_score start_time now uuid service_name
          server_uri server_id table input).2.length = table.length + 1) := by
  constructor
  · intro h1 h2
    simp [run_batch_inference_and_score, h1, h2]
  · intro hne
    constructor
    · simp [run_batch_inference_and_score, hne, create_entity]
    · simp [run_batch_inference_and_score, hne, create_entity]

/-- Witness for the amended C6: the concrete valid submission persists
exactly one ACCEPTED row and returns its job id. -/
theorem c6_submit_amended_witness :
    (¬ (c6_req.ll_model = "" ∧ c6_req.measure_model = "")) ∧
    run_batch_inference_and_score "t0" "t1" "abcdef12-3456" "svc" "/infer/"
        "srv1" [] c6_req =
      (.created "ID-abcdef12",
       [⟨"modelA", "", ⟨"ns", "bkt", "in.json"⟩, ⟨"ns", "bkt", "out.json"⟩,
         "ID-abcdef12", "svc", "/infer/", "srv1", "ACCEPTED", "t0"⟩]) ∧
    (run_batch_inference_and_score "t0" "t1" "abcdef12-3456" "svc" "/infer/"
        "srv1" [] c6_req).2.length = 1 :=
  ⟨by decide, by
    have h := (c6_submit_amended "t0" "t1" "abcdef12-3456" "svc" "/infer/"
        "srv1" [] c6_req).2 (by decide)
    exact ⟨by simpa using h.1, by simpa using h.2⟩⟩

/-- Job detail returned by get_entity_by_id: either the data of the
single matching row or the marker dict with the db_msg key. -/
inductive JobDetail
  | record (row : JobRow)
  | notFoundMsg (msg : String)
deriving DecidableEq, Repr

/-- Method get_entity_by_id of AsyncInferenceRequest
(async_infer_dao.py): select the rows whose data job_id equals the
argument; when the row count is exactly one, return the fetched row,
otherwise return the marker dict carrying the not-found message. -/
def get_entity_by_id (table : List JobRow) (jobid : String) : JobDetail :=
  match table.filter (fun row => row.job_id = jobid) with
  | [row] => .record row
  | _ => .notFoundMsg ("Inference Job id: [" ++ jobid ++ "] not found!")

/-- Concrete duplicate rows for the C9 counterexample. -/
def c9_row1 : JobRow :=
  ⟨"modelA", "", ⟨"ns", "bkt", "in.json"⟩, ⟨"ns", "bkt", "out.json"⟩,
   "ID-j1", "svc", "/infer/", "srv1", "ACCEPTED", "t0"⟩

/-- Second concrete row with the same job id for the C9 counterexample. -/
def c9_row2 : JobRow :=
  ⟨"modelB", "", ⟨"ns", "bkt", "in2.json"⟩, ⟨"ns", "bkt", "out2.json"⟩,
   "ID-j1", "svc", "/infer/", "srv2", "PROCESSING", "t0"⟩

/-- Counterexample to C9 as stated: the job id ID-j1 matches a persisted
row (c9_row1 is in the table with that id), yet because a second row
carries the same id the row count is two and get_entity_by_id returns
the not-found sentinel instead of the row data. -/
theorem c9_counterexample :
    c9_row1 ∈ [c9_row1, c9_row2] ∧
    c9_row1.job_id = "ID-j1" ∧
    get_entity_by_id [c9_row1, c9_row2] "ID-j1" =
      .notFoundMsg "Inference Job id: [ID-j1] not found!" := by
  refine ⟨by simp, by decide, by decide⟩

/-- C9 amended: with no matching row the read returns the not-found
sentinel payload and raises no error; with exactly one matching row it
returns the data of that row; with two or more matching rows it returns
the not-found sentinel. -/
theorem c9_get_status_sentinel (table : List JobRow) (jobid : String) :
    (table.filter (fun row => row.job_id = jobid) = [] →
      get_entity_by_id table jobid =
        .notFoundMsg ("Inference Job id: [" ++ jobid ++ "] not found!")) ∧
    (∀ row, table.filter (fun r => r.job_id = jobid) = [row] →
      get_entity_by_id table jobid = .record row) ∧
    (2 ≤ (table.filter (fun row => row.job_id = jobid)).length →
      get_entity_by_id table jobid =
        .notFoundMsg ("Inference Job id: [" ++ jobid ++ "] not found!")) := by
  refine ⟨?_, ?_, ?_⟩
  · intro h
    simp [get_entity_by_id, h]
  · intro row h
    simp [get_entity_by_id, h]
  · intro h
    unfold get_entity_by_id
    match hm : table.filter (fun row => row.job_id = jobid) with
    | [] => rw [hm]
    | [row] => rw [hm] at h; simp at h
    | a :: b :: rest => rw [hm]

/-- Witness for the amended C9: an absent id yields the sentinel and a
uniquely matching id yields the row. -/
theorem c9_get_status_sentinel_witness :
    ([c9_row1].filter (fun row => row.job_id = "ID-nope") = [] ∧
      get_entity_by_id [c9_row1] "ID-nope" =
        .notFoundMsg "Inference Job id: [ID-nope] not found!") ∧
    ([c9_row1].filter (fun r => r.job_id = "ID-j1") = [c9_row1] ∧
      get_entity_by_id [c9_row1] "ID-j1" = .record c9_row1) :=
  ⟨⟨by decide, by
      have h := (c9_get_status_sentinel [c9_row1] "ID-nope").1 (by decide)
      simpa using h⟩,
   ⟨by decide,
    (c9_get_status_sentinel [c9_row1] "ID-j1").2.1 c9_row1 (by decide)⟩⟩

/-- Async job status as persisted in the job_status field (enum
OperationStatus shared by model-server.py, scoring-server.py and
mis-resource-manager.py). -/
inductive JobStatus
  | accepted
  | processing
  | completed
  | failed
deriving DecidableEq, Repr

/-- Modelled from the spec: the operations of the Async Job Manager and
the Scoring Worker acting on the job table.  The worker bodies
(getAsyncInferenceRequest and processAsyncRequest of scoring-server.py)
are only pseudocode comments in the source, and update_resource of
mis-resource-manager.py is a stub; the operations follow the spec text:
Submit inserts a fresh ACCEPTED row, the worker claims an ACCEPTED row
as PROCESSING, finishes a PROCESSING row as COMPLETED or FAILED, and
status queries read without writing. -/
inductive JobOp
  | submit (job_id : String)
  | claim (job_id : String)
  | finishOk (job_id : String)
  | finishFail (job_id : String)
  | readStatus (job_id : String)
deriving DecidableEq, Repr

/-- Status update applied to every row of the given job id. -/
def updateStatus : List (String × JobStatus) → String →
    (JobStatus → JobStatus) → List (String × JobStatus)
  | [], _, _ => []
  | (k1, v) :: rest, k, f =>
      if k1 = k then (k1, f v) :: updateStatus rest k f
      else (k1, v) :: updateStatus rest k f

/-- Modelled from the spec: the claim step moves ACCEPTED to PROCESSING
and touches no other status. -/
def claimF : JobStatus → JobStatus :=
  fun s => if s = .accepted then .processing else s

/-- Modelled from the spec: a successful pipeline moves PROCESSING to
COMPLETED and touches no other status. -/
def completeF : JobStatus → JobStatus :=
  fun s => if s = .processing then .completed else s

/-- Modelled from the spec: a pipeline exception moves PROCESSING to
FAILED and touches no other status. -/
def failF : JobStatus → JobStatus :=
  fun s => if s = .processing then .failed else s

/-- Modelled from the spec: effect of one operation on the job table. -/
def applyOp (jobs : List (String × JobStatus)) : JobOp → List (String × JobStatus)
  | .submit j => jobs ++ [(j, .accepted)]
  | .claim j => updateStatus jobs j claimF
  | .finishOk j => updateStatus jobs j completeF
  | .finishFail j => updateStatus jobs j failF
  | .readStatus _ => jobs

/-- Sequence of operations run against the job table. -/
def runOps (jobs : List (String × JobStatus)) (ops : List JobOp) :
    List (String × JobStatus) :=
  ops.foldl applyOp jobs

/-- Allowed transitions of the job state machine ACCEPTED to PROCESSING
to COMPLETED or FAILED. -/
inductive JobStep : JobStatus → JobStatus → Prop
  | claim : JobStep .accepted .processing
  | complete : JobStep .processing .completed
  | fail : JobStep .processing .failed

/-- Helper lemma: a lookup hit survives appending rows on the right. -/
theorem lookupKey_append_some {β : Type} (l l2 : List (String × β))
    (j : String) (v : β) (h : lookupKey l j = some v) :
    lookupKey (l ++ l2) j = some v := by
  induction l with
  | nil => simp [lookupKey] at h
  | cons p rest ih =>
      obtain ⟨k, w⟩ := p
      by_cases hk : k = j
      · simp [lookupKey, hk] at h ⊢
        exact h
      · simp [lookupKey, hk] at h ⊢
        exact ih h

/-- Helper lemma: a status update of job k rewrites the looked-up status
of j through f exactly when j = k. -/
theorem lookupKey_updateStatus (jobs : List (String × JobStatus))
    (k : String) (f : JobStatus → JobStatus) (j : String) :
    lookupKey (updateStatus jobs k f) j =
      if j = k then (lookupKey jobs j).map f else lookupKey jobs j := by
  induction jobs with
  | nil => simp [updateStatus, lookupKey]
  | cons p rest ih =>
      obtain ⟨k1, v⟩ := p
      by_cases h1 : k1 = k
      · subst h1
        by_cases h2 : j = k1
        · subst h2
          simp [updateStatus, lookupKey, ih]
        · have h2' : ¬ k1 = j := fun hEq => h2 hEq.symm
          simp [updateStatus, lookupKey, h2, h2', ih]
      · by_cases h2 : j = k1
        · subst h2
          have h1' : ¬ j = k := h1
          simp [updateStatus, lookupKey, h1, h1']
        · have h2' : ¬ k1 = j := fun hEq => h2 hEq.symm
          simp [updateStatus, lookupKey, h1, h2', ih]

/-- Helper lemma: one operation keeps a terminal status unchanged. -/
theorem applyOp_terminal (jobs : List (String × JobStatus)) (j : String)
    (s : JobStatus) (hterm : s = .completed ∨ s = .failed)
    (h : lookupKey jobs j = some s) (op : JobOp) :
    lookupKey (applyOp jobs op) j = some s := by
  have hf : ∀ f : JobStatus → JobStatus,
      f .completed = .completed → f .failed = .failed →
      ∀ k, lookupKey (updateStatus jobs k f) j = some s := by
    intro f hfc hff k
    rw [lookupKey_updateStatus]
    by_cases hj : j = k
    · rw [if_pos hj, h]
      rcases hterm with hs | hs
      · subst hs; simp [hfc]
      · subst hs; simp [hff]
    · rw [if_neg hj]
      exact h
  cases op with
  | submit k => exact lookupKey_append_some jobs [(k, .accepted)] j s h
  | claim k => exact hf claimF (by simp [claimF]) (by simp [claimF]) k
  | finishOk k => exact hf completeF (by simp [completeF]) (by simp [completeF]) k
  | finishFail k => exact hf failF (by simp [failF]) (by simp [failF]) k
  | readStatus k => exact h

/-- C8: every single operation changes an observed job status only along
the state machine ACCEPTED to PROCESSING to COMPLETED or FAILED, and a
job once observed COMPLETED or FAILED still reports exactly that status
after any sequence of operations of the Async Job Manager and the
Scoring Worker, so it never again reports ACCEPTED or PROCESSING. -/
theorem c8_job_status_monotonic (jobs : List (String × JobStatus))
    (j : String) :
    (∀ (op : JobOp) (a b : JobStatus), lookupKey jobs j = some a →
      lookupKey (applyOp jobs op) j = some b → a = b ∨ JobStep a b) ∧
    (∀ (ops : List JobOp) (s : JobStatus),
      s = .completed ∨ s = .failed → lookupKey jobs j = some s →
      lookupKey (runOps jobs ops) j = some s) := by
  constructor
  · intro op a b ha hb
    cases op with
    | submit k =>
        simp only [applyOp] at hb
        have := lookupKey_append_some jobs [(k, .accepted)] j a ha
        rw [this] at hb
        exact Or.inl (Option.some_injective _ hb)
    | claim k =>
        simp only [applyOp] at hb
        rw [lookupKey_updateStatus] at hb
        by_cases hj : j = k
        · rw [if_pos hj, ha] at hb
          have hb' : claimF a = b := by simpa using hb
          cases a with
          | accepted =>
              right
              rw [show b = JobStatus.processing from by
                simpa [claimF] using hb'.symm]
              exact JobStep.claim
          | processing => left; simpa [claimF] using hb'
          | completed => left; simpa [claimF] using hb'
          | failed => left; simpa [claimF] using hb'
        · rw [if_neg hj, ha] at hb
          exact Or.inl (Option.some_injective _ hb)
    | finishOk k =>
        simp only [applyOp] at hb
        rw [lookupKey_updateStatus] at hb
        by_cases hj : j = k
        · rw [if_pos hj, ha] at hb
          have hb' : completeF a = b := by simpa using hb
          cases a with
          | accepted => left; simpa [completeF] using hb'
          | processing =>
              right
              rw [show b = JobStatus.completed from by
                simpa [completeF] using hb'.symm]
              exact JobStep.complete
          | completed => left; simpa [completeF] using hb'
          | failed => left; simpa [completeF] using hb'
        · rw [if_neg hj, ha] at hb
          exact Or.inl (Option.some_injective _ hb)
    | finishFail k =>
        simp only [applyOp] at hb
        rw [lookupKey_updateStatus] at hb
        by_cases hj : j = k
        · rw [if_pos hj, ha] at hb
          have hb' : failF a = b := by simpa using hb
          cases a with
          | accepted => left; simpa [failF] using hb'
          | processing =>
              right
              rw [show b = JobStatus.failed from by
                simpa [failF] using hb'.symm]
              exact JobStep.fail
          | completed => left; simpa [failF] using hb'
          | failed => left; simpa [failF] using hb'
        · rw [if_neg hj, ha] at hb
          exact Or.inl (Option.some_injective _ hb)
    | readStatus k =>
        simp only [applyOp] at hb
        rw [ha] at hb
        exact Or.inl (Option.some_injective _ hb)
  · intro ops
    induction ops generalizing jobs with
    | nil =>
        intro s hterm h
        simpa [runOps] using h
    | cons op rest ih =>
        intro s hterm h
        have hstep := applyOp_terminal jobs j s hterm h op
        have := ih (applyOp jobs op) s hterm hstep
        simpa [runOps] using this

/-- Witness for C8: a job observed COMPLETED still reports COMPLETED
after a further claim, a duplicate submit and a failure attempt. -/
theorem c8_job_status_monotonic_witness :
    ((JobStatus.completed = JobStatus.completed ∨
        JobStatus.completed = JobStatus.failed) ∧
      lookupKey [("j1", JobStatus.completed)] "j1" = some .completed) ∧
    lookupKey
        (runOps [("j1", JobStatus.completed)]
          [.claim "j1", .submit "j1", .finishFail "j1"]) "j1" =
      some .completed :=
  ⟨⟨Or.inl rfl, by decide⟩,
   (c8_job_status_monotonic [("j1", JobStatus.completed)] "j1").2
     [.claim "j1", .submit "j1", .finishFail "j1"] .completed
     (Or.inl rfl) (by decide)⟩

end OciMis
